import Mathlib

/-!
Shallow embedding of the Health Connect authorization component
(src/unnamed/part_000, the final iteration of the App component): the
component state (useState hooks and refs, lines 22-27), the mount-time
initialization flow (initHealthConnect, lines 64-102), the permission
request flow (requestHealthDataPermission, lines 104-252), the 30-second
permission timeout (lines 117-121), and the app-state lifecycle handler
(handleAppStateChange, lines 31-52), embedded as an event-step transition
system.  Each async function is cut at its await points into program
counters; an event delivers the resolution of one pending await (or a
button press, a timer fire, or an app-state change) and runs the
triggered synchronous segment to the next suspension point.

Modelling conventions: React state setters take effect immediately; the
effect re-subscription cycle of React is not modelled, so the lifecycle
handler always reads the current flag value.  The fields released and
flagOwner are ghost history fields recording which request a timeout
fire or a foreground-recovery grace fire belonged to; the step function
writes them but never branches on them, so they do not affect observable
behaviour.
-/

namespace HealthApp

/-- An (accessType, recordType) pair, as used both in the fixed request
array built at lines 163-167 and in the broker result consumed at
line 208.  Both components are strings in the source. -/
structure HealthPermission where
  accessType : String
  recordType : String
deriving DecidableEq

/-- Record type name checked at line 208. -/
def sleepSessionName : String := "SleepSession"

/-- Access type used throughout the component. -/
def readName : String := "read"

/-- Record type of the first request entry (line 164). -/
def heartRateName : String := "HeartRate"

/-- Record type of the second request entry (line 165). -/
def hrvName : String := "HeartRateVariabilityRmssd"

/-- The fixed three-element permission request built at lines 163-167. -/
def healthPermissions : List HealthPermission :=
  [⟨readName, heartRateName⟩, ⟨readName, hrvName⟩, ⟨readName, sleepSessionName⟩]

/-- A value thrown by an awaited call: a JS Error carrying a message, or
any other thrown value (the code branches on instanceof Error at
lines 91 and 228). -/
inductive Fault
  | err (message : String)
  | nonError
deriving DecidableEq

/-- Outcome of one awaited call: a resolved value or a thrown fault. -/
inductive CallRes (α : Type)
  | ok (a : α)
  | thrown (f : Fault)
deriving DecidableEq

/-- The Alert.alert messages the component can surface, tagged by the
source line that raises them. -/
inductive AlertMsg
  | blockedNotice
  | timeoutNotice
  | storeInstallNotice
  | sleepGrantedNotice
  | sleepNeededNotice
  | libraryIssueNotice
  | permissionIssueNotice
  | requestFailedNotice (message : String)
  | unknownErrorNotice
deriving DecidableEq

/-- AppStateStatus values relevant to the lifecycle handler. -/
inductive AppStatus
  | active
  | background
  | inactive
deriving DecidableEq

/-- Suspension points of the mount-time initHealthConnect flow
(lines 64-102): the getSdkStatus await (line 72), the broker init await
(line 79), the 1000ms settle pause (line 88), and completion. -/
inductive InitPC
  | sdkWait
  | initWait
  | settleWait
  | done
deriving DecidableEq

/-- Suspension points of one requestHealthDataPermission execution
(lines 104-252): the getSdkStatus await (line 125), the broker init
await inside the 3-attempt loop (line 139), the 1000ms pause between
init attempts (line 151), the 2000ms stabilization pause (line 160),
the requestPermission await inside the 2-attempt loop (line 179), the
re-init await before the retry (line 189), the 1000ms pause before the
retry (line 190), and completion. -/
inductive ReqPC
  | sdkWait
  | initWait (attempt : Nat)
  | retryWait (attempt : Nat)
  | stabilizeWait
  | permWait (attempt : Nat)
  | reInitWait
  | rePauseWait
  | done
deriving DecidableEq

/-- One live or completed execution of requestHealthDataPermission.
The released flag is ghost history: it records that the 30s timeout or
a foreground-recovery grace fired for this request. -/
structure ReqTask where
  id : Nat
  pc : ReqPC
  released : Bool
deriving DecidableEq

/-- The full component state: the four useState hooks (lines 22-25), the
appState ref (line 26), the permissionRequestTimeout ref (line 27,
stored as owner id paired with whether the timer is still pending), the
ghost owner of the in-flight flag, the two flows' program counters, the
pending foreground-recovery grace timers (line 45, FIFO, tagged with
the ghost owner recovered), and observables: the number of broker init
calls issued, the payloads of broker requestPermission calls issued,
and the alerts surfaced. -/
structure AppSt where
  isInitialized : Bool
  isInitializing : Bool
  initError : Option String
  isRequestingPermission : Bool
  appState : AppStatus
  timerRef : Option (Nat × Bool)
  flagOwner : Option Nat
  initPc : InitPC
  tasks : List ReqTask
  graces : List (Option Nat)
  nextId : Nat
  initCalls : Nat
  permCalls : List (List HealthPermission)
  alerts : List AlertMsg
deriving DecidableEq

/-- Program counter of the task with the given id, if any. -/
def taskPC : List ReqTask → Nat → Option ReqPC
  | [], _ => none
  | t :: ts, i => if t.id = i then some t.pc else taskPC ts i

/-- Replace the program counter of the task with the given id. -/
def setTaskPC : List ReqTask → Nat → ReqPC → List ReqTask
  | [], _, _ => []
  | t :: ts, i, pc => if t.id = i then { t with pc := pc } :: ts else t :: setTaskPC ts i pc

/-- Mark the task with the given id as released (ghost update). -/
def releaseTask : List ReqTask → Nat → List ReqTask
  | [], _ => []
  | t :: ts, i => if t.id = i then { t with released := true } :: ts else t :: releaseTask ts i

/-- Message thrown at line 76. -/
def sdkNotAvailableMsg : String :=
  "Health Connect SDK not available. Please install Health Connect app from Play Store."

/-- Message thrown at line 81. -/
def initReturnedFalseMsg : String := "Health Connect initialization returned false"

/-- Fallback message at line 91 for thrown values that are not Errors. -/
def unknownInitErrorMsg : String := "Unknown initialization error"

/-- Message thrown at line 156 after the third failed init attempt. -/
def initFailMsg : String := "Failed to initialize Health Connect after 3 attempts"

/-- Message thrown at line 196 after the second failed permission attempt. -/
def permFailMsg : String := "Failed to request permissions after 2 attempts"

/-- Substring probed at line 234. -/
def uninitExcToken : String := "UninitializedPropertyAccessException"

/-- Substring probed at line 243. -/
def permissionToken : String := "permission"

/-- Whether the first list is a leading segment of the second. -/
def matchesAt : List Char → List Char → Bool
  | [], _ => true
  | _ :: _, [] => false
  | a :: as, b :: bs => a == b && matchesAt as bs

/-- Whether the first list occurs contiguously inside the second. -/
def containsChars (needle : List Char) : List Char → Bool
  | [] => matchesAt needle []
  | b :: bs => matchesAt needle (b :: bs) || containsChars needle bs

/-- JS String.prototype.includes, as used at lines 234 and 243. -/
def strIncludes (hay needle : String) : Bool :=
  containsChars needle.toList hay.toList

/-- Error message recovery at line 91: the message of an Error, the
fallback text otherwise. -/
def faultMsgOrUnknown : Fault → String
  | .err m => m
  | .nonError => unknownInitErrorMsg

/-- Alert classification in the catch block of requestHealthDataPermission
(lines 228-250). -/
def classifyFaultAlert : Fault → AlertMsg
  | .err m =>
      if strIncludes m uninitExcToken then .libraryIssueNotice
      else if strIncludes m permissionToken then .permissionIssueNotice
      else .requestFailedNotice m
  | .nonError => .unknownErrorNotice

/-- The containment check at line 208: some entry of the grant result has
recordType SleepSession and accessType read. -/
def sleepGranted (granted : List HealthPermission) : Bool :=
  granted.any fun p => p.recordType == sleepSessionName && p.accessType == readName

/-- Events that can hit the component: a button press, resolutions of each
pending await of the two flows (init flow: getSdkStatus, broker init,
settle pause; request flow: getSdkStatus, broker init attempts, pauses,
requestPermission attempts, the re-init before the retry), a fire of the
30s timeout, an app-state change, and a fire of a pending
foreground-recovery grace timer. -/
inductive Ev
  | press
  | initSdkRes (r : CallRes Nat)
  | initInitRes (r : CallRes Bool)
  | initSettleDone
  | reqSdkRes (i : Nat) (r : CallRes Nat)
  | reqInitRes (i : Nat) (r : CallRes Bool)
  | reqWaitDone (i : Nat)
  | reqPermRes (i : Nat) (r : CallRes (List HealthPermission))
  | reqReInitRes (i : Nat) (r : CallRes Bool)
  | timeoutFire
  | appChange (next : AppStatus)
  | graceFire
deriving DecidableEq

/-- Catch-plus-finally of initHealthConnect (lines 90-98): record the
error, mark uninitialized, end the initializing phase. -/
def initCatch (s : AppSt) (msg : String) : AppSt :=
  { s with initError := some msg, isInitialized := false, isInitializing := false,
           initPc := .done }

/-- Catch block of requestHealthDataPermission (lines 217-251): clear the
timeout ref (lines 221-224), clear the in-flight flag (line 226), surface
a classified error alert (lines 228-250). -/
def reqCatch (s : AppSt) (i : Nat) (f : Fault) : AppSt :=
  { s with timerRef := none, isRequestingPermission := false,
           tasks := setTaskPC s.tasks i .done,
           alerts := s.alerts ++ [classifyFaultAlert f] }

/-- One transition of the component: the synchronous segment triggered by
the given event, run to its next suspension point or to completion.
Events with no matching pending continuation (a broker result for a task
not at the corresponding await point, a fire of a non-pending timer, a
grace fire with an empty queue) leave the state unchanged, since the
host delivers such events only for genuinely pending operations. -/
def step (s : AppSt) : Ev → AppSt
  | .press =>
      if !s.isInitialized || s.isInitializing || s.isRequestingPermission then
        { s with alerts := s.alerts ++ [.blockedNotice] }
      else
        { s with isRequestingPermission := true,
                 timerRef := some (s.nextId, true),
                 flagOwner := some s.nextId,
                 tasks := s.tasks ++ [⟨s.nextId, .sdkWait, false⟩],
                 nextId := s.nextId + 1 }
  | .initSdkRes r =>
      match s.initPc, r with
      | .sdkWait, .ok n =>
          if n < 3 then initCatch s sdkNotAvailableMsg
          else { s with initPc := .initWait, initCalls := s.initCalls + 1 }
      | .sdkWait, .thrown f => initCatch s (faultMsgOrUnknown f)
      | _, _ => s
  | .initInitRes r =>
      match s.initPc, r with
      | .initWait, .ok true => { s with isInitialized := true, initPc := .settleWait }
      | .initWait, .ok false => initCatch s initReturnedFalseMsg
      | .initWait, .thrown f => initCatch s (faultMsgOrUnknown f)
      | _, _ => s
  | .initSettleDone =>
      match s.initPc with
      | .settleWait => { s with isInitializing := false, initPc := .done }
      | _ => s
  | .reqSdkRes i r =>
      match taskPC s.tasks i, r with
      | some .sdkWait, .ok n =>
          if n < 3 then
            { s with tasks := setTaskPC s.tasks i .done,
                     alerts := s.alerts ++ [.storeInstallNotice] }
          else
            { s with tasks := setTaskPC s.tasks i (.initWait 1),
                     initCalls := s.initCalls + 1 }
      | some .sdkWait, .thrown f => reqCatch s i f
      | _, _ => s
  | .reqInitRes i r =>
      match taskPC s.tasks i, r with
      | some (.initWait _), .ok true =>
          { s with tasks := setTaskPC s.tasks i .stabilizeWait }
      | some (.initWait a), .ok false =>
          if a < 3 then { s with tasks := setTaskPC s.tasks i (.retryWait a) }
          else reqCatch s i (.err initFailMsg)
      | some (.initWait a), .thrown _ =>
          if a < 3 then { s with tasks := setTaskPC s.tasks i (.retryWait a) }
          else reqCatch s i (.err initFailMsg)
      | _, _ => s
  | .reqWaitDone i =>
      match taskPC s.tasks i with
      | some (.retryWait a) =>
          { s with tasks := setTaskPC s.tasks i (.initWait (a + 1)),
                   initCalls := s.initCalls + 1 }
      | some .stabilizeWait =>
          { s with tasks := setTaskPC s.tasks i (.permWait 1),
                   permCalls := s.permCalls ++ [healthPermissions] }
      | some .rePauseWait =>
          { s with tasks := setTaskPC s.tasks i (.permWait 2),
                   permCalls := s.permCalls ++ [healthPermissions] }
      | _ => s
  | .reqPermRes i r =>
      match taskPC s.tasks i, r with
      | some (.permWait _), .ok granted =>
          { s with timerRef := none, isRequestingPermission := false,
                   tasks := setTaskPC s.tasks i .done,
                   alerts := s.alerts ++
                     [if sleepGranted granted then AlertMsg.sleepGrantedNotice
                      else AlertMsg.sleepNeededNotice] }
      | some (.permWait a), .thrown _ =>
          if a < 2 then
            { s with tasks := setTaskPC s.tasks i .reInitWait,
                     initCalls := s.initCalls + 1 }
          else reqCatch s i (.err permFailMsg)
      | _, _ => s
  | .reqReInitRes i r =>
      match taskPC s.tasks i, r with
      | some .reInitWait, .ok _ => { s with tasks := setTaskPC s.tasks i .rePauseWait }
      | some .reInitWait, .thrown f => reqCatch s i f
      | _, _ => s
  | .timeoutFire =>
      match s.timerRef with
      | some (owner, true) =>
          { s with timerRef := some (owner, false),
                   isRequestingPermission := false,
                   tasks := releaseTask s.tasks owner,
                   alerts := s.alerts ++ [.timeoutNotice] }
      | _ => s
  | .appChange next =>
      if s.appState = AppStatus.background ∧ next = AppStatus.active ∧
          s.isRequestingPermission = true then
        { s with timerRef := none, graces := s.graces ++ [s.flagOwner],
                 appState := next }
      else
        { s with appState := next }
  | .graceFire =>
      match s.graces with
      | [] => s
      | g :: rest =>
          { s with graces := rest, isRequestingPermission := false,
                   tasks := match g with
                            | some i => releaseTask s.tasks i
                            | none => s.tasks }

/-- Component state at mount: the useState initial values (lines 22-25),
the appState ref at its startup value, and the mount effect having
entered initHealthConnect up to its first await. -/
def initialState : AppSt :=
  { isInitialized := false, isInitializing := true, initError := none,
    isRequestingPermission := false, appState := .active, timerRef := none,
    flagOwner := none, initPc := .sdkWait, tasks := [], graces := [],
    nextId := 0, initCalls := 0, permCalls := [], alerts := [] }

/-- The state after a clean mount-time initialization: a usable SDK
status, a successful broker init, and the settle pause completing. -/
def readyState : AppSt :=
  [Ev.initSdkRes (.ok 3), Ev.initInitRes (.ok true), Ev.initSettleDone].foldl step initialState

/-- Quiescent post-initialization states: initialized, not initializing,
no request in flight, and no live request continuation. -/
def ReadyQuiescent (s : AppSt) : Prop :=
  s.isInitialized = true ∧ s.isInitializing = false ∧
  s.isRequestingPermission = false ∧ s.tasks = []

/-- Whether a program counter denotes a pending broker requestPermission
call. -/
def isPermWait : ReqPC → Bool
  | .permWait _ => true
  | _ => false

/-- Number of requests whose broker requestPermission call is pending and
that have neither completed nor been released by a timeout or a
foreground recovery. -/
def inFlightCount (s : AppSt) : Nat :=
  (s.tasks.filter fun t => isPermWait t.pc && !t.released).length

/-- Whether an init-attempt outcome fails the check at line 140: the call
resolved to false or threw. -/
def isInitFailure : CallRes Bool → Bool
  | .ok true => false
  | _ => true

/-- Event schedule exercising the environment-error return path at
lines 128-131: a clean initialization, a press, and a getSdkStatus
result of 2 (below the usability threshold) for the request. -/
def envErrorTrace : List Ev :=
  [.initSdkRes (.ok 3), .initInitRes (.ok true), .initSettleDone,
   .press, .reqSdkRes 0 (.ok 2)]

/-- Event schedule in which the 30s timeout fires while the broker
requestPermission call is pending and the broker result (containing the
SleepSession read pair) arrives only afterwards. -/
def lateResultTrace : List Ev :=
  [.initSdkRes (.ok 3), .initInitRes (.ok true), .initSettleDone,
   .press, .reqSdkRes 0 (.ok 3), .reqInitRes 0 (.ok true), .reqWaitDone 0,
   .timeoutFire, .reqPermRes 0 (.ok [⟨readName, sleepSessionName⟩])]

/-- Event schedule in which request 0 reaches its broker call and times
out; request 1 is started by a second press and reaches its broker call;
the late result of request 0 then arrives (running the success path of
lines 199-216, which clears the in-flight flag and cancels request 1's
timer); and a third press starts request 2, which also reaches its
broker call while request 1's call is still pending and request 1 was
never completed, timed out, or foreground-recovered. -/
def twoInFlightTrace : List Ev :=
  [.initSdkRes (.ok 3), .initInitRes (.ok true), .initSettleDone,
   .press, .reqSdkRes 0 (.ok 3), .reqInitRes 0 (.ok true), .reqWaitDone 0,
   .timeoutFire,
   .press, .reqSdkRes 1 (.ok 3), .reqInitRes 1 (.ok true), .reqWaitDone 1,
   .reqPermRes 0 (.ok []),
   .press, .reqSdkRes 2 (.ok 3), .reqInitRes 2 (.ok true), .reqWaitDone 2]

/-- C1: the claim states that for every interleaving at most one
permission request is in flight at any time (a pending broker
requestPermission call not yet completed, timed out, or
foreground-recovered).  This is false on the code: after the schedule
twoInFlightTrace, two distinct requests are simultaneously in flight in
exactly that sense (a late result of an already-timed-out request runs
the normal success path, clearing the in-flight flag that guarded the
newer request and cancelling its timer, so a further press starts yet
another broker call).  Three broker requestPermission calls have been
issued in total. -/
theorem c1_two_requests_in_flight :
    inFlightCount (twoInFlightTrace.foldl step initialState) = 2 ∧
    (twoInFlightTrace.foldl step initialState).permCalls.length = 3 ∧
    (twoInFlightTrace.foldl step initialState).tasks =
      [⟨0, .done, true⟩, ⟨1, .permWait 1, false⟩, ⟨2, .permWait 1, false⟩] := by
  decide

/-- C2: the claim states that every terminal failure path of
requestHealthDataPermission, including the below-threshold environment
error, clears the in-flight flag and disarms the 30s timer before the
operation returns.  This is false on the code: on the environment-error
path (return at line 130, which skips the cleanup at lines 199-205 and
221-226) the operation completes with the in-flight flag still set and
the timeout timer still armed, after surfacing the install-store alert. -/
theorem c2_env_error_leaves_flag_and_timer :
    (envErrorTrace.foldl step initialState).isRequestingPermission = true ∧
    (envErrorTrace.foldl step initialState).timerRef = some (0, true) ∧
    taskPC (envErrorTrace.foldl step initialState).tasks 0 = some .done ∧
    (envErrorTrace.foldl step initialState).alerts = [.storeInstallNotice] := by
  decide

/-- C3: the claim states that a broker result arriving after the request
has timed out is discarded (logged, no state mutation, no
granted/denied outcome surfaced).  This is false on the code: there is
no epoch guard, so the late result runs the normal success path of
lines 199-216 and surfaces the granted alert right after the timeout
alert, as well as nulling the timer ref. -/
theorem c3_late_result_surfaced :
    (lateResultTrace.foldl step initialState).alerts =
      [.timeoutNotice, .sleepGrantedNotice] ∧
    (lateResultTrace.foldl step initialState).timerRef = none ∧
    (lateResultTrace.foldl step initialState).tasks = [⟨0, .done, true⟩] := by
  decide

/-- C4: during initialization, a getSdkStatus result below the usability
threshold 3 makes initHealthConnect fail immediately: the broker init
capability is never invoked (the init-call counter stays 0), the final
state records the user-actionable store-install reason, is not
initialized, and the flow is complete, with no retry. -/
theorem c4_below_threshold_no_init (n : Nat) (hn : n < 3) :
    step initialState (.initSdkRes (.ok n)) =
      { initialState with initError := some sdkNotAvailableMsg,
                          isInitializing := false, initPc := .done } ∧
    (step initialState (.initSdkRes (.ok n))).initCalls = 0 := by
  constructor
  · simp [step, initialState, initCatch, hn]
  · simp [step, initialState, initCatch, hn]

/-- Witness for C4 at the concrete below-threshold status 0. -/
theorem c4_below_threshold_no_init_witness :
    step initialState (.initSdkRes (.ok 0)) =
      { initialState with initError := some sdkNotAvailableMsg,
                          isInitializing := false, initPc := .done } ∧
    (step initialState (.initSdkRes (.ok 0))).initCalls = 0 :=
  c4_below_threshold_no_init 0 (by decide)

/-- C8: pressing the button while initialization is incomplete or failed,
or while a request is already in flight, only surfaces the advisory
notice: every other component field is unchanged, so no request task is
created and no second broker requestPermission call is issued. -/
theorem c8_guarded_press_noop (s : AppSt)
    (h : s.isInitialized = false ∨ s.isInitializing = true ∨
         s.isRequestingPermission = true) :
    step s .press = { s with alerts := s.alerts ++ [.blockedNotice] } := by
  have hg : (!s.isInitialized || s.isInitializing || s.isRequestingPermission) = true := by
    rcases h with h | h | h <;> simp [h]
  simp [step, hg]

/-- Witness for C8 at the mount state, where initialization is still in
progress. -/
theorem c8_guarded_press_noop_witness :
    step initialState .press =
      { initialState with alerts := initialState.alerts ++ [.blockedNotice] } :=
  c8_guarded_press_noop initialState (by decide)

/-- C7: from any state with a request in flight, the app in the
background, and no grace timer already pending, the
background-to-active transition cancels the timeout timer, and the
grace timer it schedules then force-clears the in-flight flag; neither
step surfaces any alert, so no granted or denied outcome is asserted. -/
theorem c7_foreground_recovery (s : AppSt)
    (h1 : s.appState = .background) (h2 : s.isRequestingPermission = true)
    (h3 : s.graces = []) :
    (step s (.appChange .active)).timerRef = none ∧
    (step (step s (.appChange .active)) .graceFire).isRequestingPermission = false ∧
    (step (step s (.appChange .active)) .graceFire).alerts = s.alerts ∧
    (step (step s (.appChange .active)) .graceFire).appState = .active := by
  simp [step, h1, h2, h3]

/-- A reachable state with a request pending at the broker call and the
app moved to the background. -/
def backgroundInFlightState : AppSt :=
  [Ev.initSdkRes (.ok 3), Ev.initInitRes (.ok true), Ev.initSettleDone,
   Ev.press, Ev.reqSdkRes 0 (.ok 3), Ev.reqInitRes 0 (.ok true), Ev.reqWaitDone 0,
   Ev.appChange .background].foldl step initialState

/-- Witness for C7 at a concrete reachable in-flight background state. -/
theorem c7_foreground_recovery_witness :
    (step backgroundInFlightState (.appChange .active)).timerRef = none ∧
    (step (step backgroundInFlightState (.appChange .active)) .graceFire).isRequestingPermission = false ∧
    (step (step backgroundInFlightState (.appChange .active)) .graceFire).alerts =
      backgroundInFlightState.alerts ∧
    (step (step backgroundInFlightState (.appChange .active)) .graceFire).appState = .active :=
  c7_foreground_recovery backgroundInFlightState (by decide) (by decide) (by decide)

/-- The line 208 containment check succeeds exactly when the grant result
contains the read/SleepSession pair. -/
theorem sleepGranted_iff (g : List HealthPermission) :
    sleepGranted g = true ↔ (⟨readName, sleepSessionName⟩ : HealthPermission) ∈ g := by
  simp only [sleepGranted, List.any_eq_true, Bool.and_eq_true, beq_iff_eq]
  constructor
  · rintro ⟨⟨pa, pr⟩, hmem, h1, h2⟩
    dsimp at h1 h2
    subst h1
    subst h2
    exact hmem
  · intro hm
    exact ⟨_, hm, rfl, rfl⟩

/-- C9: a successful broker result for a pending requestPermission call
reaches a non-error terminal outcome: the timer is disarmed, the
in-flight flag cleared, the task completed, and the surfaced outcome is
granted exactly when the result contains the read/SleepSession pair and
denied when it omits it — membership of that single pair is the whole
classification, so no other pair in the result affects it. -/
theorem c9_result_classification (s : AppSt) (i a : Nat)
    (g : List HealthPermission) (h : taskPC s.tasks i = some (.permWait a)) :
    step s (.reqPermRes i (.ok g)) =
      { s with timerRef := none, isRequestingPermission := false,
               tasks := setTaskPC s.tasks i .done,
               alerts := s.alerts ++
                 [if (⟨readName, sleepSessionName⟩ : HealthPermission) ∈ g then
                    AlertMsg.sleepGrantedNotice else AlertMsg.sleepNeededNotice] } := by
  rcases hsg : sleepGranted g with _ | _
  · have hm : (⟨readName, sleepSessionName⟩ : HealthPermission) ∉ g := by
      intro hmem
      rw [(sleepGranted_iff g).mpr hmem] at hsg
      cases hsg
    simp [step, h, hsg, hm]
  · have hm := (sleepGranted_iff g).mp hsg
    simp [step, h, hsg, hm]

/-- A reachable state with a request pending at the broker call. -/
def permWaitState : AppSt :=
  [Ev.initSdkRes (.ok 3), Ev.initInitRes (.ok true), Ev.initSettleDone,
   Ev.press, Ev.reqSdkRes 0 (.ok 3), Ev.reqInitRes 0 (.ok true),
   Ev.reqWaitDone 0].foldl step initialState

/-- Witness for C9 at a concrete reachable state and a singleton grant
result containing the read/SleepSession pair. -/
theorem c9_result_classification_witness :
    step permWaitState (.reqPermRes 0 (.ok [⟨readName, sleepSessionName⟩])) =
      { permWaitState with
        timerRef := none, isRequestingPermission := false,
        tasks := setTaskPC permWaitState.tasks 0 .done,
        alerts := permWaitState.alerts ++
          [if (⟨readName, sleepSessionName⟩ : HealthPermission) ∈
              [(⟨readName, sleepSessionName⟩ : HealthPermission)] then
             AlertMsg.sleepGrantedNotice else AlertMsg.sleepNeededNotice] } :=
  c9_result_classification permWaitState 0 1 _ (by decide)

/-- Failing init-attempt outcomes are exactly a false resolution or a
thrown fault. -/
theorem initFailure_elim (r : CallRes Bool) (h : isInitFailure r = true) :
    r = CallRes.ok false ∨ ∃ f, r = CallRes.thrown f := by
  rcases r with ⟨b⟩ | ⟨f⟩
  · cases b
    · exact Or.inl rfl
    · simp [isInitFailure] at h
  · exact Or.inr ⟨f, rfl⟩

/-- Events of one requestHealthDataPermission run in which all three init
attempts fail: a press, a usable SDK status, and three failing broker
init results with the pauses between attempts. -/
def initExhaustionTrace (i : Nat) (r₁ r₂ r₃ : CallRes Bool) : List Ev :=
  [.press, .reqSdkRes i (.ok 3), .reqInitRes i r₁, .reqWaitDone i,
   .reqInitRes i r₂, .reqWaitDone i, .reqInitRes i r₃]

/-- C5: starting from any quiescent initialized state, if all three init
attempts inside requestHealthDataPermission fail, the flow terminates in
the fatal error state (the classified alert for the line 156 message,
in-flight flag cleared, timer disarmed, task complete) and the broker
requestPermission capability is never called. -/
theorem c5_init_exhaustion_no_perm_call (s : AppSt) (h : ReadyQuiescent s)
    (r₁ r₂ r₃ : CallRes Bool) (h1 : isInitFailure r₁ = true)
    (h2 : isInitFailure r₂ = true) (h3 : isInitFailure r₃ = true) :
    ((initExhaustionTrace s.nextId r₁ r₂ r₃).foldl step s).permCalls = s.permCalls ∧
    ((initExhaustionTrace s.nextId r₁ r₂ r₃).foldl step s).isRequestingPermission = false ∧
    ((initExhaustionTrace s.nextId r₁ r₂ r₃).foldl step s).timerRef = none ∧
    taskPC ((initExhaustionTrace s.nextId r₁ r₂ r₃).foldl step s).tasks s.nextId =
      some .done ∧
    ((initExhaustionTrace s.nextId r₁ r₂ r₃).foldl step s).alerts =
      s.alerts ++ [classifyFaultAlert (.err initFailMsg)] := by
  obtain ⟨hA, hB, hC, hD⟩ := h
  rcases initFailure_elim r₁ h1 with rfl | ⟨f₁, rfl⟩ <;>
    rcases initFailure_elim r₂ h2 with rfl | ⟨f₂, rfl⟩ <;>
    rcases initFailure_elim r₃ h3 with rfl | ⟨f₃, rfl⟩ <;>
    simp [initExhaustionTrace, List.foldl, step, taskPC, setTaskPC, reqCatch,
          hA, hB, hC, hD]

/-- Witness for C5 at the concrete post-initialization state with three
false init resolutions. -/
theorem c5_init_exhaustion_no_perm_call_witness :
    ((initExhaustionTrace readyState.nextId (CallRes.ok false) (CallRes.ok false)
        (CallRes.ok false)).foldl step readyState).permCalls = readyState.permCalls ∧
    ((initExhaustionTrace readyState.nextId (CallRes.ok false) (CallRes.ok false)
        (CallRes.ok false)).foldl step readyState).isRequestingPermission = false ∧
    ((initExhaustionTrace readyState.nextId (CallRes.ok false) (CallRes.ok false)
        (CallRes.ok false)).foldl step readyState).timerRef = none ∧
    taskPC ((initExhaustionTrace readyState.nextId (CallRes.ok false) (CallRes.ok false)
        (CallRes.ok false)).foldl step readyState).tasks readyState.nextId =
      some .done ∧
    ((initExhaustionTrace readyState.nextId (CallRes.ok false) (CallRes.ok false)
        (CallRes.ok false)).foldl step readyState).alerts =
      readyState.alerts ++ [classifyFaultAlert (.err initFailMsg)] :=
  c5_init_exhaustion_no_perm_call readyState ⟨rfl, rfl, rfl, rfl⟩
    (CallRes.ok false) (CallRes.ok false) (CallRes.ok false) rfl rfl rfl

/-- Events of one run in which init fails twice, succeeds on the third
attempt, and the single permission call then resolves successfully. -/
def thirdTrySuccessTrace (i : Nat) (r₁ r₂ : CallRes Bool)
    (g : List HealthPermission) : List Ev :=
  [.press, .reqSdkRes i (.ok 3), .reqInitRes i r₁, .reqWaitDone i,
   .reqInitRes i r₂, .reqWaitDone i, .reqInitRes i (.ok true),
   .reqWaitDone i, .reqPermRes i (.ok g)]

set_option maxHeartbeats 1600000 in
/-- C6: starting from any quiescent initialized state, if the first two
init attempts fail and the third succeeds, the retry loop short-circuits
and, with the permission call then resolving, the broker
requestPermission capability is issued exactly once (one payload is
appended to the call log) and the run completes. -/
theorem c6_third_attempt_single_perm_call (s : AppSt) (h : ReadyQuiescent s)
    (r₁ r₂ : CallRes Bool) (h1 : isInitFailure r₁ = true)
    (h2 : isInitFailure r₂ = true) (g : List HealthPermission) :
    ((thirdTrySuccessTrace s.nextId r₁ r₂ g).foldl step s).permCalls =
      s.permCalls ++ [healthPermissions] ∧
    taskPC ((thirdTrySuccessTrace s.nextId r₁ r₂ g).foldl step s).tasks s.nextId =
      some .done ∧
    ((thirdTrySuccessTrace s.nextId r₁ r₂ g).foldl step s).isRequestingPermission =
      false := by
  obtain ⟨hA, hB, hC, hD⟩ := h
  rcases initFailure_elim r₁ h1 with rfl | ⟨f₁, rfl⟩ <;>
    rcases initFailure_elim r₂ h2 with rfl | ⟨f₂, rfl⟩ <;>
    simp [thirdTrySuccessTrace, List.foldl, step, taskPC, setTaskPC, reqCatch,
          hA, hB, hC, hD]

/-- Witness for C6 at the concrete post-initialization state, two false
init resolutions, and an empty grant result. -/
theorem c6_third_attempt_single_perm_call_witness :
    ((thirdTrySuccessTrace readyState.nextId (CallRes.ok false) (CallRes.ok false)
        []).foldl step readyState).permCalls =
      readyState.permCalls ++ [healthPermissions] ∧
    taskPC ((thirdTrySuccessTrace readyState.nextId (CallRes.ok false) (CallRes.ok false)
        []).foldl step readyState).tasks readyState.nextId = some .done ∧
    ((thirdTrySuccessTrace readyState.nextId (CallRes.ok false) (CallRes.ok false)
        []).foldl step readyState).isRequestingPermission = false :=
  c6_third_attempt_single_perm_call readyState ⟨rfl, rfl, rfl, rfl⟩
    (CallRes.ok false) (CallRes.ok false) rfl rfl []

/-- Every branch of step either leaves the issued requestPermission
payload log unchanged or appends the fixed three-element request. -/
theorem step_permCalls_cases (s : AppSt) (e : Ev) :
    (step s e).permCalls = s.permCalls ∨
    (step s e).permCalls = s.permCalls ++ [healthPermissions] := by
  cases e <;> simp only [step, reqCatch, initCatch] <;> (repeat' split) <;> simp

/-- Payload log invariant carried through any event schedule. -/
theorem foldl_permCalls_fixed (evs : List Ev) :
    ∀ s : AppSt, (s.permCalls.all fun c => c == healthPermissions) = true →
      (((evs.foldl step s).permCalls).all fun c => c == healthPermissions) = true := by
  induction evs with
  | nil => exact fun s h => h
  | cons e rest ih =>
      intro s h
      rw [List.foldl_cons]
      apply ih
      rcases step_permCalls_cases s e with hc | hc
      · rw [hc]
        exact h
      · rw [hc, List.all_append, h]
        simp

/-- C10: along every event schedule from mount, every broker
requestPermission call ever issued carries exactly the fixed
three-element read request (HeartRate, HeartRateVariabilityRmssd,
SleepSession); the press event carries no payload, so every invocation
and every retry issues the identical request. -/
theorem c10_fixed_request_payload (evs : List Ev) :
    (((evs.foldl step initialState).permCalls).all fun c => c == healthPermissions) =
      true :=
  foldl_permCalls_fixed evs initialState rfl

end HealthApp
